import Mathlib

/-!
Shallow embedding of `src/main.py`: a FastAPI service that stores scalar
water-level readings in an append-only SQLite table and forecasts future
levels with an ARIMA(5,1,0) model from statsmodels.

Modelling choices:
* Levels (Python floats) are embedded as rationals `ℚ`.
* The SQLite table `water_levels` is a `Store`: the ordered list of rows
  plus the next autoincrement id (SQLite assigns ids 1, 2, 3, ...).
* Each endpoint is a pure function taking the store and returning its
  response together with the store after the request (explicit state
  passing in place of the request-scoped SQLAlchemy session).
* The statsmodels ARIMA fit/forecast is an external library, not code of
  this repository; it is embedded as an abstract `ArimaEngine` parameter.
  `forecast_water_levels` records the exact `ArimaInvocation` it performs,
  so that claims about the model order and about the engine not being
  invoked are statable.
-/

/-- One row of the `water_levels` table: `id` (integer primary key) and
`level` (float column). -/
structure Reading where
  id : Nat
  level : ℚ
deriving DecidableEq, Repr

/-- State of the SQLite store: rows in insertion (rowid) order plus the
next autoincrement id to be assigned. -/
structure Store where
  nextId : Nat
  rows : List Reading
deriving DecidableEq, Repr

/-- The store right after `Base.metadata.create_all`: empty table; SQLite
assigns 1 as the first integer primary key. -/
def initialStore : Store := ⟨1, []⟩

/-- Well-formedness invariant of reachable stores: row ids are strictly
increasing along insertion order and below the next id to assign. -/
def Store.WF (s : Store) : Prop :=
  (s.rows.map Reading.id).Chain' (· < ·) ∧ ∀ r ∈ s.rows, r.id < s.nextId

instance (s : Store) : Decidable s.WF :=
  decidable_of_iff
    ((s.rows.map Reading.id).Pairwise (· < ·) ∧ ∀ r ∈ s.rows, r.id < s.nextId)
    (and_congr_left fun _ => List.chain'_iff_pairwise.symm)

/-- `load_water_levels`: project the `level` column over all rows in
insertion order. -/
def load_water_levels (db : Store) : List ℚ :=
  db.rows.map Reading.level

/-- The Python exception raised when the numeric ARIMA fit fails
(e.g. a linear-algebra error on a degenerate series). -/
structure ModelFitError where
  msg : String
deriving DecidableEq, Repr

/-- One call into the external ARIMA library:
`ARIMA(data_series, order=o).fit().forecast(steps=n)`. -/
structure ArimaInvocation where
  data : List ℚ
  order : Nat × Nat × Nat
  steps : Nat
deriving DecidableEq, Repr

/-- Modelled from the spec: the statsmodels ARIMA dependency (not code of
this repository). Fitting is a deterministic numeric optimisation that
either fails with a `ModelFitError` or yields `forecast(steps=n)`, an
ordered sequence of exactly `n` point predictions. -/
structure ArimaEngine where
  run : ArimaInvocation → Except ModelFitError (List ℚ)
  run_length : ∀ inv out, run inv = Except.ok out → out.length = inv.steps

/-- `forecast_water_levels`: build the series from `data`, construct
`ARIMA(data_series, order=(5, 1, 0))`, fit it and forecast
`steps=days_ahead` values. Returns the engine's outcome together with the
invocation that was performed. -/
def forecast_water_levels (engine : ArimaEngine) (data : List ℚ)
    (days_ahead : Nat) : Except ModelFitError (List ℚ) × ArimaInvocation :=
  let inv : ArimaInvocation := ⟨data, (5, 1, 0), days_ahead⟩
  (engine.run inv, inv)

/-- Response of `POST /water-level/`:
`{"message": ..., "level": ...}`. -/
structure AddResponse where
  message : String
  level : ℚ
deriving DecidableEq, Repr

/-- Response of `POST /water-levels/`:
`{"message": ..., "levels": [...]}`. -/
structure AddManyResponse where
  message : String
  levels : List ℚ
deriving DecidableEq, Repr

/-- Outcome of a GET endpoint: a 200 JSON body, or an `HTTPException`
with a status code and a detail message. -/
inductive ApiResult (α : Type) where
  | ok (value : α)
  | httpError (status : Nat) (detail : String)
deriving DecidableEq, Repr

/-- `POST /water-level/` (`add_water_level`): insert one row with the next
id, commit, and echo the stored level. -/
def add_water_level (data : ℚ) (db : Store) : AddResponse × Store :=
  let new_level : Reading := ⟨db.nextId, data⟩
  ({ message := "Water level added successfully", level := new_level.level },
   ⟨db.nextId + 1, db.rows ++ [new_level]⟩)

/-- `POST /water-levels/` (`add_multiple_water_levels`): build one row per
entry, `add_all` them (ids assigned consecutively in input order on
commit), and echo the stored levels. -/
def add_multiple_water_levels (data : List ℚ) (db : Store) :
    AddManyResponse × Store :=
  let new_levels : List Reading :=
    data.enum.map fun p => ⟨db.nextId + p.1, p.2⟩
  ({ message := "Water levels added successfully",
     levels := new_levels.map Reading.level },
   ⟨db.nextId + data.length, db.rows ++ new_levels⟩)

/-- `ORDER BY id DESC ... first()`: the row with the greatest id (none on
an empty table). -/
def queryLatestReading : List Reading → Option Reading
  | [] => none
  | r :: rs => some (rs.foldl (fun a b => if a.id < b.id then b else a) r)

/-- `GET /water-level/latest/` (`get_latest_water_level`): the level of the
row with the greatest id, or a 404 if the table is empty. -/
def get_latest_water_level (db : Store) : ApiResult ℚ × Store :=
  match queryLatestReading db.rows with
  | none => (ApiResult.httpError 404 "No water level data available", db)
  | some result => (ApiResult.ok result.level, db)

/-- `GET /water-level/all/` (`get_all_water_levels`): all levels in
insertion order, or a 404 if the table is empty. -/
def get_all_water_levels (db : Store) : ApiResult (List ℚ) × Store :=
  let results := db.rows
  if results.isEmpty then
    (ApiResult.httpError 404 "No water level data available", db)
  else
    (ApiResult.ok (results.map Reading.level), db)

/-- Outcome of `GET /water-level/forecast/`: the structured
insufficient-data body `{"error": ...}` (HTTP 200), the forecast body
`{"15_day_forecast": {...}}` (HTTP 200), or an exception escaping the
handler (FastAPI reports it as a 500 Internal Server Error). -/
inductive ForecastResponse where
  | insufficientData (error : String)
  | forecastOk (forecast : List (String × ℚ))
  | uncaughtError (e : ModelFitError)
deriving DecidableEq, Repr

/-- HTTP status the framework reports for each forecast outcome: plain
dict returns are 200; an unhandled exception becomes a 500. -/
def ForecastResponse.status : ForecastResponse → Nat
  | .insufficientData _ => 200
  | .forecastOk _ => 200
  | .uncaughtError _ => 500

/-- `GET /water-level/forecast/` (`forecast_next_15_days`): load the
history; with fewer than 10 points return the structured message without
touching the engine; otherwise call `forecast_water_levels` with
`days_ahead=15` and key the predictions `day_1`, `day_2`, .... The middle
component lists the ARIMA invocations the request performed. -/
def forecast_next_15_days (engine : ArimaEngine) (db : Store) :
    ForecastResponse × List ArimaInvocation × Store :=
  let historical_data := load_water_levels db
  if historical_data.length < 10 then
    (ForecastResponse.insufficientData
      "Not enough data to make a prediction. Please add more data points.",
     [], db)
  else
    let fw := forecast_water_levels engine historical_data 15
    match fw.1 with
    | Except.error e => (ForecastResponse.uncaughtError e, [fw.2], db)
    | Except.ok prediction =>
        (ForecastResponse.forecastOk
          (prediction.enum.map fun p => ("day_" ++ toString (p.1 + 1), p.2)),
         [fw.2], db)

/-- Sequence of single insertions via `POST /water-level/`. -/
def addLevels (db : Store) : List ℚ → Store
  | [] => db
  | l :: ls => addLevels (add_water_level l db).2 ls

/-- An engine that always fits and predicts a constant zero series. -/
def constEngine : ArimaEngine where
  run inv := Except.ok (List.replicate inv.steps 0)
  run_length inv out h := by cases h; simp

/-- An engine whose numeric fit always fails. -/
def failEngine : ArimaEngine where
  run _ := Except.error ⟨"numeric fit did not converge"⟩
  run_length inv out h := by cases h

/-- A reachable store holding ten readings (Scenario C of the spec). -/
def demoStore : Store :=
  addLevels initialStore
    [5, 51/10, 52/10, 5, 49/10, 53/10, 54/10, 52/10, 51/10, 5]

/-- A reachable store holding two readings. -/
def smallStore : Store := addLevels initialStore [2, 5]

section Helpers

lemma get_latest_water_level_snd (db : Store) :
    (get_latest_water_level db).2 = db := by
  unfold get_latest_water_level
  cases queryLatestReading db.rows <;> rfl

lemma get_all_water_levels_snd (db : Store) :
    (get_all_water_levels db).2 = db := by
  unfold get_all_water_levels
  by_cases h : db.rows.isEmpty <;> simp [h]

lemma forecast_next_15_days_snd (engine : ArimaEngine) (db : Store) :
    (forecast_next_15_days engine db).2.2 = db := by
  unfold forecast_next_15_days
  dsimp only
  split
  · rfl
  · split <;> rfl

lemma enumFrom_mk_map_id (l : List ℚ) : ∀ n : Nat,
    ((List.enumFrom n l).map (fun p => (⟨p.1, p.2⟩ : Reading))).map Reading.id
      = List.range' n l.length := by
  induction l with
  | nil => intro n; rfl
  | cons a l ih =>
      intro n
      simp only [List.enumFrom_cons, List.map_cons, List.length_cons,
        List.range'_succ]
      rw [ih (n + 1)]

lemma enumFrom_mk_map_level (l : List ℚ) : ∀ n : Nat,
    ((List.enumFrom n l).map (fun p => (⟨p.1, p.2⟩ : Reading))).map Reading.level
      = l := by
  induction l with
  | nil => intro n; rfl
  | cons a l ih =>
      intro n
      simp only [List.enumFrom_cons, List.map_cons]
      rw [ih (n + 1)]

lemma enumFrom_add_base (l : List ℚ) : ∀ n k : Nat,
    (List.enumFrom k l).map (fun p => (⟨n + p.1, p.2⟩ : Reading))
      = (List.enumFrom (n + k) l).map (fun p => (⟨p.1, p.2⟩ : Reading)) := by
  induction l with
  | nil => intro n k; rfl
  | cons a l ih =>
      intro n k
      simp only [List.enumFrom_cons, List.map_cons]
      rw [ih n (k + 1)]
      rfl

/-- The rows created by `add_multiple_water_levels`, rewritten with the id
absorbed into the enumeration start. -/
lemma new_levels_eq (n : Nat) (l : List ℚ) :
    l.enum.map (fun p => (⟨n + p.1, p.2⟩ : Reading))
      = (List.enumFrom n l).map (fun p => (⟨p.1, p.2⟩ : Reading)) :=
  enumFrom_add_base l n 0

/-- Closed form of a sequence of single insertions. -/
lemma addLevels_char : ∀ (ls : List ℚ) (db : Store),
    addLevels db ls
      = ⟨db.nextId + ls.length,
         db.rows ++ (List.enumFrom db.nextId ls).map
           (fun p => (⟨p.1, p.2⟩ : Reading))⟩ := by
  intro ls
  induction ls with
  | nil => intro db; simp [addLevels]
  | cons l ls ih =>
      intro db
      rw [addLevels, ih]
      simp only [add_water_level, List.enumFrom_cons, List.map_cons,
        List.length_cons, Store.mk.injEq]
      constructor
      · omega
      · rw [List.append_assoc, List.singleton_append]

lemma chain'_lt_range' (n : Nat) : ∀ s : Nat,
    (List.range' s n).Chain' (· < ·) := by
  induction n with
  | zero => intro s; simp
  | succ m ih =>
      intro s
      rw [List.range'_succ]
      cases m with
      | zero => simp
      | succ m' =>
          rw [List.range'_succ]
          exact List.chain'_cons.mpr
            ⟨Nat.lt_succ_self s, by rw [← List.range'_succ]; exact ih (s + 1)⟩

lemma foldl_latest (rs : List Reading) : ∀ r : Reading,
    ((r :: rs).map Reading.id).Chain' (· < ·) →
    some (rs.foldl (fun a b => if a.id < b.id then b else a) r)
      = (r :: rs).getLast? := by
  induction rs with
  | nil => intro r _; rfl
  | cons x xs ih =>
      intro r h
      simp only [List.map_cons, List.chain'_cons] at h
      rw [List.getLast?_cons_cons, List.foldl_cons, if_pos h.1]
      exact ih x (by simpa using h.2)

/-- On a table with strictly increasing ids, `ORDER BY id DESC ... first()`
is the most recently inserted row. -/
lemma queryLatest_eq_getLast (l : List Reading)
    (h : (l.map Reading.id).Chain' (· < ·)) :
    queryLatestReading l = l.getLast? := by
  cases l with
  | nil => rfl
  | cons r rs => exact foldl_latest rs r h

lemma WF_initialStore : initialStore.WF := by decide

lemma WF_add_water_level {db : Store} (h : db.WF) (l : ℚ) :
    (add_water_level l db).2.WF := by
  obtain ⟨hc, hb⟩ := h
  constructor
  · show ((db.rows ++ [(⟨db.nextId, l⟩ : Reading)]).map Reading.id).Chain' (· < ·)
    rw [List.map_append, List.chain'_append]
    refine ⟨hc, List.chain'_singleton _, ?_⟩
    intro x hx y hy
    simp only [List.map_cons, List.map_nil, List.head?_cons,
      Option.mem_def, Option.some.injEq] at hy
    subst hy
    obtain ⟨r, hr, rfl⟩ :=
      List.mem_map.mp (List.mem_of_mem_getLast? hx)
    exact hb r hr
  · intro r hr
    show r.id < db.nextId + 1
    rcases List.mem_append.mp hr with hr | hr
    · exact Nat.lt_succ_of_lt (hb r hr)
    · simp only [List.mem_singleton] at hr
      subst hr
      exact Nat.lt_succ_self _

lemma WF_add_multiple_water_levels {db : Store} (h : db.WF) (data : List ℚ) :
    (add_multiple_water_levels data db).2.WF := by
  obtain ⟨hc, hb⟩ := h
  have hrows : (add_multiple_water_levels data db).2.rows
      = db.rows ++ (List.enumFrom db.nextId data).map
          (fun p => (⟨p.1, p.2⟩ : Reading)) := by
    show db.rows ++ data.enum.map (fun p => (⟨db.nextId + p.1, p.2⟩ : Reading))
        = _
    rw [new_levels_eq]
  constructor
  · rw [hrows, List.map_append, enumFrom_mk_map_id, List.chain'_append]
    refine ⟨hc, chain'_lt_range' _ _, ?_⟩
    intro x hx y hy
    rw [List.head?_range'] at hy
    by_cases hd : data.length = 0
    · rw [if_pos hd] at hy
      exact absurd hy (by simp)
    · rw [if_neg hd] at hy
      simp only [Option.mem_def, Option.some.injEq] at hy
      subst hy
      obtain ⟨r, hr, rfl⟩ :=
        List.mem_map.mp (List.mem_of_mem_getLast? hx)
      exact hb r hr
  · intro r hr
    show r.id < db.nextId + data.length
    rw [hrows] at hr
    rcases List.mem_append.mp hr with hr | hr
    · have := hb r hr
      omega
    · have hid : r.id ∈ ((List.enumFrom db.nextId data).map
          (fun p => (⟨p.1, p.2⟩ : Reading))).map Reading.id :=
        List.mem_map_of_mem Reading.id hr
      rw [enumFrom_mk_map_id] at hid
      have := List.mem_range'_1.mp hid
      omega

lemma forecast_keys (l : List ℚ) :
    ((l.enum.map fun p => ("day_" ++ toString (p.1 + 1), p.2)).map Prod.fst)
      = (List.range l.length).map (fun i => "day_" ++ toString (i + 1)) := by
  rw [List.map_map, ← List.enum_map_fst l, List.map_map]
  rfl

lemma forecast_snd (l : List ℚ) :
    ((l.enum.map fun p => ("day_" ++ toString (p.1 + 1), p.2)).map Prod.snd)
      = l := by
  conv_rhs => rw [← List.enum_map_snd l]
  rw [List.map_map]
  rfl

end Helpers

/-- C1: with fewer than 10 historical readings the forecast endpoint performs
no ARIMA invocation and returns the structured insufficient-data response: a
200-style payload whose body carries the explanatory message, not an error
status. -/
theorem C1_insufficient_data_no_fit (engine : ArimaEngine) (db : Store)
    (h : (load_water_levels db).length < 10) :
    (forecast_next_15_days engine db).1
        = ForecastResponse.insufficientData
            "Not enough data to make a prediction. Please add more data points."
      ∧ (forecast_next_15_days engine db).2.1 = []
      ∧ (forecast_next_15_days engine db).1.status = 200 := by
  unfold forecast_next_15_days
  dsimp only
  rw [if_pos h]
  exact ⟨rfl, rfl, rfl⟩

/-- Witness for C1: the empty initial store has 0 < 10 readings. -/
theorem C1_insufficient_data_no_fit_witness :
    (load_water_levels initialStore).length < 10
      ∧ ((forecast_next_15_days constEngine initialStore).1
            = ForecastResponse.insufficientData
                "Not enough data to make a prediction. Please add more data points."
          ∧ (forecast_next_15_days constEngine initialStore).2.1 = []
          ∧ (forecast_next_15_days constEngine initialStore).1.status = 200) :=
  ⟨by decide, C1_insufficient_data_no_fit constEngine initialStore (by decide)⟩

/-- C3: every invocation of the ARIMA fit built by `forecast_water_levels`
carries model order exactly (5, 1, 0): autoregressive lag 5, differencing 1,
moving average 0. -/
theorem C3_arima_order (engine : ArimaEngine) (data : List ℚ)
    (days_ahead : Nat) :
    (forecast_water_levels engine data days_ahead).2.order = (5, 1, 0) := rfl

/-- C9: the GET endpoints (latest, all, forecast) leave the reading store
unchanged. -/
theorem C9_reads_preserve_store (engine : ArimaEngine) (db : Store) :
    (get_latest_water_level db).2 = db
      ∧ (get_all_water_levels db).2 = db
      ∧ (forecast_next_15_days engine db).2.2 = db :=
  ⟨get_latest_water_level_snd db, get_all_water_levels_snd db,
   forecast_next_15_days_snd engine db⟩

/-- C10: batch insertion of the empty list succeeds with the success
message, echoes an empty list of levels, and leaves the store unchanged. -/
theorem C10_empty_batch (db : Store) :
    add_multiple_water_levels [] db
      = ({ message := "Water levels added successfully", levels := [] }, db) := by
  simp [add_multiple_water_levels]

/-- C6: batch insertion appends exactly one row per input level, assigning
ids consecutively from the store's next id in input order; the operation is
total (all entries are appended, never a partial subset) and echoes the
input levels. -/
theorem C6_batch_insert_consecutive (db : Store) (levels : List ℚ) :
    ∃ new_rows : List Reading,
      (add_multiple_water_levels levels db).2.rows = db.rows ++ new_rows
        ∧ new_rows.map Reading.id = List.range' db.nextId levels.length
        ∧ new_rows.map Reading.level = levels
        ∧ (add_multiple_water_levels levels db).2.nextId
            = db.nextId + levels.length
        ∧ (add_multiple_water_levels levels db).1.levels = levels := by
  refine ⟨(List.enumFrom db.nextId levels).map (fun p => (⟨p.1, p.2⟩ : Reading)),
    ?_, enumFrom_mk_map_id levels db.nextId,
    enumFrom_mk_map_level levels db.nextId, rfl, ?_⟩
  · show db.rows ++ levels.enum.map (fun p => (⟨db.nextId + p.1, p.2⟩ : Reading))
        = db.rows ++ (List.enumFrom db.nextId levels).map
            (fun p => (⟨p.1, p.2⟩ : Reading))
    rw [new_levels_eq]
  · show (levels.enum.map (fun p => (⟨db.nextId + p.1, p.2⟩ : Reading))).map
        Reading.level = levels
    rw [new_levels_eq, enumFrom_mk_map_level]

/-- C2: with at least 10 historical readings, whenever the ARIMA fit
succeeds the forecast endpoint returns exactly 15 numeric predictions, keyed
by the sequential day labels day_1 through day_15 (day index starting
at 1). -/
theorem C2_forecast_returns_15_days (engine : ArimaEngine) (db : Store)
    (out : List ℚ)
    (h10 : ¬ (load_water_levels db).length < 10)
    (hok : engine.run ⟨load_water_levels db, (5, 1, 0), 15⟩ = Except.ok out) :
    ∃ fs : List (String × ℚ),
      (forecast_next_15_days engine db).1 = ForecastResponse.forecastOk fs
        ∧ fs.length = 15
        ∧ fs.map Prod.fst
            = (List.range 15).map (fun i => "day_" ++ toString (i + 1))
        ∧ fs.map Prod.snd = out := by
  have hlen : out.length = 15 := engine.run_length _ out hok
  refine ⟨out.enum.map (fun p => ("day_" ++ toString (p.1 + 1), p.2)),
    ?_, ?_, ?_, forecast_snd out⟩
  · unfold forecast_next_15_days
    dsimp only
    rw [if_neg h10]
    unfold forecast_water_levels
    dsimp only
    rw [hok]
  · rw [List.length_map, List.enum_length, hlen]
  · rw [forecast_keys, hlen]

/-- Witness for C2 at a ten-reading store and a concrete engine. -/
theorem C2_forecast_returns_15_days_witness :
    (¬ (load_water_levels demoStore).length < 10)
      ∧ constEngine.run ⟨load_water_levels demoStore, (5, 1, 0), 15⟩
          = Except.ok (List.replicate 15 0)
      ∧ ∃ fs : List (String × ℚ),
          (forecast_next_15_days constEngine demoStore).1
              = ForecastResponse.forecastOk fs
            ∧ fs.length = 15
            ∧ fs.map Prod.fst
                = (List.range 15).map (fun i => "day_" ++ toString (i + 1))
            ∧ fs.map Prod.snd = List.replicate 15 0 :=
  ⟨by decide, rfl,
   C2_forecast_returns_15_days constEngine demoStore (List.replicate 15 0)
     (by decide) rfl⟩

/-- C4: on every well-formed store, latest() and all() signal the 404
NotFound error with its descriptive message exactly when the store is
empty, and whenever all() succeeds, latest() succeeds with the last element
of the list all() returned. -/
theorem C4_latest_is_last_of_all (s : Store) (h : s.WF) :
    ((get_latest_water_level s).1
        = ApiResult.httpError 404 "No water level data available"
      ↔ s.rows = [])
      ∧ ((get_all_water_levels s).1
          = ApiResult.httpError 404 "No water level data available"
        ↔ s.rows = [])
      ∧ ∀ l, (get_all_water_levels s).1 = ApiResult.ok l →
          ∃ q, l.getLast? = some q
            ∧ (get_latest_water_level s).1 = ApiResult.ok q := by
  obtain ⟨n, rows⟩ := s
  obtain ⟨hc, -⟩ := h
  have hq := queryLatest_eq_getLast rows hc
  cases rows with
  | nil =>
      refine ⟨by simp [get_latest_water_level, queryLatestReading], ?_, ?_⟩
      · simp [get_all_water_levels]
      · intro l hl
        simp [get_all_water_levels] at hl
  | cons r rs =>
      obtain ⟨q, hqq⟩ : ∃ q, (r :: rs).getLast? = some q :=
        Option.isSome_iff_exists.mp (List.getLast?_isSome.mpr (by simp))
      have hlatest : (get_latest_water_level ⟨n, r :: rs⟩).1
          = ApiResult.ok q.level := by
        unfold get_latest_water_level
        rw [hq, hqq]
      have hall : (get_all_water_levels ⟨n, r :: rs⟩).1
          = ApiResult.ok ((r :: rs).map Reading.level) := by
        unfold get_all_water_levels
        simp
      refine ⟨?_, ?_, ?_⟩
      · rw [hlatest]; simp
      · rw [hall]; simp
      · intro l hl
        rw [hall] at hl
        simp only [ApiResult.ok.injEq] at hl
        subst hl
        exact ⟨q.level, by rw [List.getLast?_map, hqq]; rfl, hlatest⟩

/-- Witness for C4 at a concrete well-formed two-reading store. -/
theorem C4_latest_is_last_of_all_witness :
    Store.WF smallStore
      ∧ (((get_latest_water_level smallStore).1
            = ApiResult.httpError 404 "No water level data available"
          ↔ smallStore.rows = [])
          ∧ ((get_all_water_levels smallStore).1
              = ApiResult.httpError 404 "No water level data available"
            ↔ smallStore.rows = [])
          ∧ ∀ l, (get_all_water_levels smallStore).1 = ApiResult.ok l →
              ∃ q, l.getLast? = some q
                ∧ (get_latest_water_level smallStore).1 = ApiResult.ok q) :=
  ⟨by decide, C4_latest_is_last_of_all smallStore (by decide)⟩

/-- C5 counterexample: for the empty insertion sequence (N = 0) the all()
endpoint does not return the empty list of values as the claim requires; it
signals the 404 NotFound error instead. -/
theorem C5_counterexample_zero_insertions :
    (get_all_water_levels (addLevels initialStore [])).1
        = ApiResult.httpError 404 "No water level data available"
      ∧ (get_all_water_levels (addLevels initialStore [])).1
        ≠ ApiResult.ok ([] : List ℚ) :=
  ⟨rfl, by decide⟩

/-- C5 (amended): for every sequence of N ≥ 1 insertions from the initial
store, all() returns exactly those N values in insertion order and the
stored readings carry strictly increasing gap-free ids 1, 2, ..., N (for
N = 0 all() signals NotFound instead of an empty list). -/
theorem C5_insertions_in_order (ls : List ℚ) (hne : ls ≠ []) :
    (get_all_water_levels (addLevels initialStore ls)).1 = ApiResult.ok ls
      ∧ (addLevels initialStore ls).rows.map Reading.id
          = List.range' 1 ls.length
      ∧ (addLevels initialStore ls).rows.map Reading.level = ls := by
  have hrows : (addLevels initialStore ls).rows
      = (List.enumFrom 1 ls).map (fun p => (⟨p.1, p.2⟩ : Reading)) := by
    rw [addLevels_char]
    exact List.nil_append _
  have hne' : ((List.enumFrom 1 ls).map
      (fun p => (⟨p.1, p.2⟩ : Reading))).isEmpty = false := by
    cases ls with
    | nil => exact absurd rfl hne
    | cons a l => rfl
  refine ⟨?_, ?_, ?_⟩
  · unfold get_all_water_levels
    dsimp only
    rw [hrows, hne']
    rw [if_neg Bool.false_ne_true]
    dsimp only
    rw [enumFrom_mk_map_level]
  · rw [hrows, enumFrom_mk_map_id]
  · rw [hrows, enumFrom_mk_map_level]

/-- Witness for C5 (amended) at the three-element insertion sequence of
Scenario B. -/
theorem C5_insertions_in_order_witness :
    ([1, 2, 3] : List ℚ) ≠ []
      ∧ ((get_all_water_levels (addLevels initialStore [1, 2, 3])).1
            = ApiResult.ok [1, 2, 3]
          ∧ (addLevels initialStore [1, 2, 3]).rows.map Reading.id
              = List.range' 1 ([1, 2, 3] : List ℚ).length
          ∧ (addLevels initialStore [1, 2, 3]).rows.map Reading.level
              = [1, 2, 3]) :=
  ⟨by decide, C5_insertions_in_order [1, 2, 3] (by decide)⟩

/-- C7: when the numeric fit fails on a sufficient history, the failure
escapes the handler unchanged (no silent fallback): it surfaces as a
500-style error, distinguishable from the 200 insufficient-data body and
from the 404 NotFound error. -/
theorem C7_model_fit_error_propagates (engine : ArimaEngine) (db : Store)
    (e : ModelFitError)
    (h10 : ¬ (load_water_levels db).length < 10)
    (herr : engine.run ⟨load_water_levels db, (5, 1, 0), 15⟩
      = Except.error e) :
    (forecast_next_15_days engine db).1 = ForecastResponse.uncaughtError e
      ∧ (forecast_next_15_days engine db).1.status = 500
      ∧ (∀ m, (forecast_next_15_days engine db).1
          ≠ ForecastResponse.insufficientData m)
      ∧ (forecast_next_15_days engine db).1.status ≠ 200
      ∧ (forecast_next_15_days engine db).1.status ≠ 404 := by
  have hmain : (forecast_next_15_days engine db).1
      = ForecastResponse.uncaughtError e := by
    unfold forecast_next_15_days
    dsimp only
    rw [if_neg h10]
    unfold forecast_water_levels
    dsimp only
    rw [herr]
  refine ⟨hmain, by rw [hmain]; rfl, ?_, ?_, ?_⟩
  · intro m
    rw [hmain]
    simp
  · rw [hmain]
    simp [ForecastResponse.status]
  · rw [hmain]
    simp [ForecastResponse.status]

/-- Witness for C7 with a concrete always-failing engine on a ten-reading
store. -/
theorem C7_model_fit_error_propagates_witness :
    (¬ (load_water_levels demoStore).length < 10)
      ∧ failEngine.run ⟨load_water_levels demoStore, (5, 1, 0), 15⟩
          = Except.error ⟨"numeric fit did not converge"⟩
      ∧ ((forecast_next_15_days failEngine demoStore).1
            = ForecastResponse.uncaughtError ⟨"numeric fit did not converge"⟩
          ∧ (forecast_next_15_days failEngine demoStore).1.status = 500
          ∧ (∀ m, (forecast_next_15_days failEngine demoStore).1
              ≠ ForecastResponse.insufficientData m)
          ∧ (forecast_next_15_days failEngine demoStore).1.status ≠ 200
          ∧ (forecast_next_15_days failEngine demoStore).1.status ≠ 404) :=
  ⟨by decide, rfl,
   C7_model_fit_error_propagates failEngine demoStore
     ⟨"numeric fit did not converge"⟩ (by decide) rfl⟩

/-- C8: the forecast engine retains no state between calls: equal supplied
histories and horizons yield equal fit outcomes and equal recorded
invocations, and a second forecast request issued right after a first one
(on the store the first request left behind) returns the same response. -/
theorem C8_forecast_stateless (engine : ArimaEngine) (d1 d2 : List ℚ)
    (n1 n2 : Nat) (db : Store) (hd : d1 = d2) (hn : n1 = n2) :
    forecast_water_levels engine d1 n1 = forecast_water_levels engine d2 n2
      ∧ (forecast_next_15_days engine
            (forecast_next_15_days engine db).2.2).1
          = (forecast_next_15_days engine db).1 := by
  subst hd
  subst hn
  exact ⟨rfl, by rw [forecast_next_15_days_snd]⟩

/-- Witness for C8 at concrete equal inputs. -/
theorem C8_forecast_stateless_witness :
    ([1, 2] : List ℚ) = [1, 2]
      ∧ (15 : Nat) = 15
      ∧ (forecast_water_levels constEngine [1, 2] 15
            = forecast_water_levels constEngine [1, 2] 15
          ∧ (forecast_next_15_days constEngine
                (forecast_next_15_days constEngine initialStore).2.2).1
              = (forecast_next_15_days constEngine initialStore).1) :=
  ⟨rfl, rfl,
   C8_forecast_stateless constEngine [1, 2] [1, 2] 15 15 initialStore rfl rfl⟩
